

import Mathlib

/-!
# Verification of the strand execution engine and resilient invocation wrapper

A shallow embedding, in Lean 4, of the core of the `genai-learning-assistant`
repository:

* `src/agents/strand_agent.py` — the `StrandContext` data model, the
  `StrandAgent` execution engine (`execute`, `_execute_loop`, `pause`,
  `resume`, `invoke_model` response extraction) and its serialization
  (`to_dict`);
* `src/agents/learning_agent.py` — the concrete step policy
  (`LearningAgent.should_continue`);
* `src/services/bedrock_service.py` — the `BedrockService` invocation
  wrapper, together with the tenacity retry combinator
  (`retry_if_exception_type((ClientError, ConnectionError))`,
  `stop_after_attempt(3)`, `wait_exponential(multiplier=1, min=2, max=10)`,
  `reraise=True`) that decorates it.

Modelling conventions:

* Python values stored in the free-form `variables` / `metadata` dictionaries
  are modelled by the inductive type `PyValue`; dictionaries are association
  lists with first-match lookup and in-place update.
* Python `datetime` values are modelled by a `DateTime` record of calendar
  components at microsecond precision (the full precision of `datetime`);
  `isoformat` renders the `YYYY-MM-DDTHH:MM:SS[.ffffff]` shape produced by
  `datetime.isoformat`, with the fractional part omitted when
  `microsecond == 0`, exactly as in Python.
* In-place mutation of a `StrandContext` is modelled by explicit state
  passing; an exception raised while the context has been mutated carries
  the mutated context, which is what a caller holding a reference to the
  (in-place mutated) object observes in the source.
* Exceptions are modelled by the `PyExc` type; fallible operations return
  `Except` / explicit outcome types.
* Wall-clock reads (`datetime.utcnow()`) are supplied as explicit `DateTime`
  arguments; the expiry of the `asyncio.wait_for` deadline is supplied as an
  oracle argument (`timeoutAt`), since real time is outside the embedding.
-/

set_option autoImplicit false

/-- Python values held in the free-form `variables` and `metadata`
dictionaries (`dict[str, Any]` in the source). -/
inductive PyValue where
  | none
  | bool (b : Bool)
  | int (n : Int)
  | str (s : String)
  | list (xs : List PyValue)
  | dict (kvs : List (String × PyValue))

/-- Python truthiness (`bool(v)`), as used by
`return not context.variables["learning_complete"]`. -/
def pyTruthy : PyValue → Bool
  | .none => false
  | .bool b => b
  | .int n => decide (n ≠ 0)
  | .str s => !s.isEmpty
  | .list xs => !xs.isEmpty
  | .dict kvs => !kvs.isEmpty

/-- First-match lookup in a Python dictionary modelled as an association
list (`d[k]` / `k in d` / `d.get(k)`). -/
def dictGet (kvs : List (String × PyValue)) (k : String) : Option PyValue :=
  (kvs.find? (fun kv => kv.1 == k)).map (·.2)

/-- In-place update `d[k] = v` of a Python dictionary modelled as an
association list: replaces the first binding of `k`, else appends. -/
def dictSet (kvs : List (String × PyValue)) (k : String) (v : PyValue) :
    List (String × PyValue) :=
  match kvs with
  | [] => [(k, v)]
  | (k', v') :: rest =>
    if k' == k then (k, v) :: rest else (k', v') :: dictSet rest k v

/-- A `datetime.datetime` value, at the full (microsecond) precision of the
Python type. -/
structure DateTime where
  year : Nat
  month : Nat
  day : Nat
  hour : Nat
  minute : Nat
  second : Nat
  microsecond : Nat
deriving DecidableEq

/-- The range invariants of Python `datetime` components
(`MINYEAR = 1`, `MAXYEAR = 9999`, and the usual calendar/clock bounds). -/
def DateTime.WF (d : DateTime) : Prop :=
  1 ≤ d.year ∧ d.year ≤ 9999 ∧ 1 ≤ d.month ∧ d.month ≤ 12 ∧
  1 ≤ d.day ∧ d.day ≤ 31 ∧ d.hour ≤ 23 ∧ d.minute ≤ 59 ∧
  d.second ≤ 59 ∧ d.microsecond ≤ 999999

instance (d : DateTime) : Decidable d.WF := by
  unfold DateTime.WF; infer_instance

/-- Zero-padded two-digit decimal rendering (`%02d`). -/
def pad2 (n : Nat) : List Char :=
  [Nat.digitChar (n / 10), Nat.digitChar (n % 10)]

/-- Zero-padded four-digit decimal rendering (`%04d`). -/
def pad4 (n : Nat) : List Char :=
  [Nat.digitChar (n / 1000), Nat.digitChar (n / 100 % 10),
   Nat.digitChar (n / 10 % 10), Nat.digitChar (n % 10)]

/-- Zero-padded six-digit decimal rendering (`%06d`). -/
def pad6 (n : Nat) : List Char :=
  [Nat.digitChar (n / 100000), Nat.digitChar (n / 10000 % 10),
   Nat.digitChar (n / 1000 % 10), Nat.digitChar (n / 100 % 10),
   Nat.digitChar (n / 10 % 10), Nat.digitChar (n % 10)]

/-- The character list of `datetime.isoformat()`:
`YYYY-MM-DDTHH:MM:SS` with `.ffffff` appended exactly when
`microsecond != 0`, as in CPython. -/
def DateTime.isoformatChars (d : DateTime) : List Char :=
  pad4 d.year ++ '-' :: pad2 d.month ++ '-' :: pad2 d.day ++
    'T' :: pad2 d.hour ++ ':' :: pad2 d.minute ++ ':' :: pad2 d.second ++
    (if d.microsecond = 0 then [] else '.' :: pad6 d.microsecond)

/-- `datetime.isoformat()`. -/
def DateTime.isoformat (d : DateTime) : String :=
  ⟨d.isoformatChars⟩

/-- A decimal digit character to its value, validating that it is a digit
(`int(c)` on a single character, failing on non-digits). -/
def parseDigit (c : Char) : Option Nat :=
  if c.isDigit then some (c.toNat - 48) else none

/-- Parse two decimal digit characters. -/
def parse2 (a b : Char) : Option Nat :=
  match parseDigit a, parseDigit b with
  | some x, some y => some (x * 10 + y)
  | _, _ => none

/-- Parse four decimal digit characters. -/
def parse4 (a b c d : Char) : Option Nat :=
  match parseDigit a, parseDigit b, parseDigit c, parseDigit d with
  | some x, some y, some z, some w => some (x * 1000 + y * 100 + z * 10 + w)
  | _, _, _, _ => none

/-- Parse six decimal digit characters. -/
def parse6 (a b c d e f : Char) : Option Nat :=
  match parseDigit a, parseDigit b, parseDigit c, parseDigit d,
        parseDigit e, parseDigit f with
  | some u, some v, some x, some y, some z, some w =>
    some (u * 100000 + v * 10000 + x * 1000 + y * 100 + z * 10 + w)
  | _, _, _, _, _, _ => none

/-- Modelled from the spec: the repository serializes a context with
`to_dict` but contains no deserializer, so the inverse direction of the
round-trip of §6/§8 is modelled from the spec's transport shape.  This is
the timestamp part: parsing the ISO-8601 shapes `YYYY-MM-DDTHH:MM:SS` and
`YYYY-MM-DDTHH:MM:SS.ffffff` (`datetime.fromisoformat`). -/
def fromIsoChars : List Char → Option DateTime
  | y1 :: y2 :: y3 :: y4 :: a :: m1 :: m2 :: b :: d1 :: d2 :: t ::
      h1 :: h2 :: c :: n1 :: n2 :: e :: s1 :: s2 :: rest =>
    if a = '-' && b = '-' && t = 'T' && c = ':' && e = ':' then
      match parse4 y1 y2 y3 y4, parse2 m1 m2, parse2 d1 d2,
            parse2 h1 h2, parse2 n1 n2, parse2 s1 s2 with
      | some yy, some mo, some dd, some hh, some mi, some ss =>
        match rest with
        | [] => some ⟨yy, mo, dd, hh, mi, ss, 0⟩
        | dot :: us =>
          if dot = '.' then
            match us with
            | [u1, u2, u3, u4, u5, u6] =>
              match parse6 u1 u2 u3 u4 u5 u6 with
              | some uu => some ⟨yy, mo, dd, hh, mi, ss, uu⟩
              | Option.none => none
            | _ => none
          else none
      | _, _, _, _, _, _ => none
    else none
  | _ => none

/-- Modelled from the spec: `datetime.fromisoformat`, see `fromIsoChars`. -/
def DateTime.fromisoformat (s : String) : Option DateTime :=
  fromIsoChars s.data

/-- `StrandState` — strand execution states (`class StrandState(str, Enum)`). -/
inductive StrandState where
  | idle
  | running
  | paused
  | completed
  | failed
  | timeout
deriving DecidableEq

/-- The string value of each state (`StrandState.IDLE = "idle"`, ...). -/
def StrandState.value : StrandState → String
  | .idle => "idle"
  | .running => "running"
  | .paused => "paused"
  | .completed => "completed"
  | .failed => "failed"
  | .timeout => "timeout"

/-- Modelled from the spec: the inverse of `StrandState.value`, needed to
deserialize the transport shape (`state name` field); the repository has no
deserializer. -/
def StrandState.ofValue : String → Option StrandState
  | "idle" => some .idle
  | "running" => some .running
  | "paused" => some .paused
  | "completed" => some .completed
  | "failed" => some .failed
  | "timeout" => some .timeout
  | _ => none

/-- `StrandMessage` — a message in a strand conversation. -/
structure StrandMessage where
  role : String
  content : String
  timestamp : DateTime
  metadata : List (String × PyValue)

/-- `StrandContext` — the context for a strand execution.  The `uuid`
default factories for the identifiers are modelled by passing identifiers
explicitly where a fresh context is created. -/
structure StrandContext where
  strand_id : String
  session_id : String
  state : StrandState
  messages : List StrandMessage
  «variables» : List (String × PyValue)
  iteration : Nat
  max_iterations : Nat
  start_time : Option DateTime
  end_time : Option DateTime
  error : Option String

/-- A freshly constructed `StrandContext(max_iterations=...)`: field defaults
of the dataclass, with the two generated UUIDs passed in. -/
def mkStrandContext (sid sess : String) (maxIter : Nat) : StrandContext :=
  { strand_id := sid, session_id := sess, state := .idle, messages := [],
    «variables» := [], iteration := 0, max_iterations := maxIter,
    start_time := none, end_time := none, error := none }

/-- `StrandContext.add_message`: appends a `StrandMessage`; the message
timestamp comes from the `datetime.utcnow` default factory, supplied here
as `t`. -/
def StrandContext.add_message (c : StrandContext) (role content : String)
    (t : DateTime) (metadata : List (String × PyValue)) : StrandContext :=
  { c with messages := c.messages ++
      [{ role := role, content := content, timestamp := t, metadata := metadata }] }

/-- The dictionary produced by `StrandMessage.to_dict`: fixed keys `role`,
`content`, `timestamp` (ISO string), `metadata`, modelled as a record. -/
structure MessageDict where
  role : String
  content : String
  timestamp : String
  metadata : List (String × PyValue)

/-- The dictionary produced by `StrandContext.to_dict`, modelled as a record
with one field per fixed key. -/
structure ContextDict where
  strand_id : String
  session_id : String
  state : String
  messages : List MessageDict
  «variables» : List (String × PyValue)
  iteration : Nat
  max_iterations : Nat
  start_time : Option String
  end_time : Option String
  error : Option String

/-- `StrandMessage.to_dict`. -/
def StrandMessage.to_dict (m : StrandMessage) : MessageDict :=
  { role := m.role, content := m.content,
    timestamp := m.timestamp.isoformat, metadata := m.metadata }

/-- `StrandContext.to_dict`. -/
def StrandContext.to_dict (c : StrandContext) : ContextDict :=
  { strand_id := c.strand_id, session_id := c.session_id,
    state := c.state.value,
    messages := c.messages.map StrandMessage.to_dict,
    «variables» := c.«variables», iteration := c.iteration,
    max_iterations := c.max_iterations,
    start_time := c.start_time.map DateTime.isoformat,
    end_time := c.end_time.map DateTime.isoformat,
    error := c.error }

/-- Modelled from the spec: deserialize one message of the transport shape
(`role`, `text`, ISO-8601 timestamp, metadata map); the repository has no
deserializer. -/
def StrandMessage.from_dict (d : MessageDict) : Option StrandMessage :=
  (DateTime.fromisoformat d.timestamp).map
    (fun t => { role := d.role, content := d.content, timestamp := t,
                metadata := d.metadata })

/-- Modelled from the spec: deserialize a nullable ISO-8601 timestamp. -/
def parseOptTime : Option String → Option (Option DateTime)
  | none => some none
  | some s => (DateTime.fromisoformat s).map some

/-- Modelled from the spec: deserialize the transport shape of a context
(record with strand id, session id, state name, ordered message list,
variables map, iteration, max_iterations, nullable start/end timestamps,
nullable error text); the repository has no deserializer. -/
def StrandContext.from_dict (d : ContextDict) : Option StrandContext :=
  match StrandState.ofValue d.state,
        d.messages.mapM StrandMessage.from_dict,
        parseOptTime d.start_time, parseOptTime d.end_time with
  | some st, some msgs, some t0, some t1 =>
    some { strand_id := d.strand_id, session_id := d.session_id, state := st,
           messages := msgs, «variables» := d.«variables»,
           iteration := d.iteration, max_iterations := d.max_iterations,
           start_time := t0, end_time := t1, error := d.error }
  | _, _, _, _ => none

/-- Well-formedness of a context's timestamps: every recorded `datetime`
satisfies the `datetime` range invariants. -/
def StrandContext.TimesWF (c : StrandContext) : Prop :=
  (∀ m ∈ c.messages, m.timestamp.WF) ∧
  (∀ t ∈ c.start_time, DateTime.WF t) ∧ (∀ t ∈ c.end_time, DateTime.WF t)

/-- Python exceptions relevant to the invocation wrapper.  `clientError` is
botocore's `ClientError` (carrying the upstream error code and message),
`connectionError` the builtin `ConnectionError`; `bedrockError` is the
repository's `BedrockError`. -/
inductive PyExc where
  | clientError (code msg : String)
  | connectionError (msg : String)
  | bedrockError (msg : String)
  | otherError (msg : String)
deriving DecidableEq

/-- The `str(e)` text used when an exception is interpolated into a message. -/
def PyExc.text : PyExc → String
  | .clientError _ msg => msg
  | .connectionError msg => msg
  | .bedrockError msg => msg
  | .otherError msg => msg

/-- `retry_if_exception_type((ClientError, ConnectionError))`: the tenacity
predicate deciding whether a raised exception is retried. -/
def isRetryableExc : PyExc → Bool
  | .clientError _ _ => true
  | .connectionError _ => true
  | _ => false

/-- tenacity `wait_exponential(multiplier=1, min=2, max=10)` after the
attempt numbered `attemptNumber` (1-based):
`max(min, min(multiplier * 2^(attempt_number - 1), max))`. -/
def waitExponential (multiplier minW maxW attemptNumber : Nat) : Nat :=
  Nat.max minW (Nat.min (multiplier * 2 ^ (attemptNumber - 1)) maxW)

/-- The tenacity retry loop for a decorated function whose behaviour on the
`n`-th call (1-based) is `f n`: retries while the raised exception matches
`isRetryableExc` and fewer than `remaining` further attempts are allowed
(`stop_after_attempt`), sleeping `waitExponential 1 2 10 n` between
attempts; with `reraise=True` the final exception is re-raised as-is.
Returns the result, the number of the final attempt, and the list of
inter-attempt delays actually slept. -/
def retryGo {α : Type} (f : Nat → Except PyExc α) :
    Nat → Nat → Except PyExc α × Nat × List Nat
  | 0, n => (f n, n, [])
  | 1, n => (f n, n, [])
  | r + 2, n =>
    match f n with
    | .ok a => (.ok a, n, [])
    | .error e =>
      if isRetryableExc e then
        let rec' := retryGo f (r + 1) (n + 1)
        (rec'.1, rec'.2.1, waitExponential 1 2 10 n :: rec'.2.2)
      else (.error e, n, [])

/-- The `@retry(retry=retry_if_exception_type((ClientError, ConnectionError)),
stop=stop_after_attempt(3), wait=wait_exponential(multiplier=1, min=2,
max=10), reraise=True)` decorator of `BedrockService`. -/
def tenacityRetry3 {α : Type} (f : Nat → Except PyExc α) :
    Except PyExc α × Nat × List Nat :=
  retryGo f 3 1

/-- The body of `BedrockService.invoke_model`, given the behaviour `ep` of
the underlying `bedrock-runtime` endpoint on the `n`-th call: a success
returns the parsed response body; a `ClientError` is caught and re-raised
as `BedrockError("Bedrock model invocation failed: ...")`; any other
exception is caught by the final handler and re-raised as
`BedrockError("Unexpected error: ...")`. -/
def invoke_model_body {α : Type} (ep : Nat → Except PyExc α) (n : Nat) :
    Except PyExc α :=
  match ep n with
  | .ok r => .ok r
  | .error (.clientError _ msg) =>
    .error (.bedrockError ("Bedrock model invocation failed: " ++ msg))
  | .error e => .error (.bedrockError ("Unexpected error: " ++ e.text))

/-- `BedrockService.invoke_model`: the decorated function — the tenacity
retry wrapper applied to the body. -/
def BedrockService.invoke_model {α : Type} (ep : Nat → Except PyExc α) :
    Except PyExc α × Nat × List Nat :=
  tenacityRetry3 (invoke_model_body ep)

/-- The configuration consumed by `BedrockService` for agent/knowledge-base
operations. -/
structure BedrockSettings where
  bedrock_agent_id : Option String
  bedrock_agent_alias_id : Option String
  bedrock_knowledge_base_id : Option String

/-- Python truthiness of an optional string setting
(`not self.settings.bedrock_agent_id`): falsy when `None` or empty. -/
def pyFalsyOptStr : Option String → Bool
  | none => true
  | some s => s.isEmpty

/-- The body of `BedrockService.invoke_agent`: the configuration guard runs
before the `try` block and before any endpoint call; a `ClientError` from
the endpoint is re-raised as `BedrockError`; there is no catch-all handler,
so any other exception escapes unchanged. -/
def invoke_agent_body {α : Type} (st : BedrockSettings)
    (ep : Nat → Except PyExc α) (n : Nat) : Except PyExc α :=
  if pyFalsyOptStr st.bedrock_agent_id || pyFalsyOptStr st.bedrock_agent_alias_id then
    .error (.bedrockError "Bedrock Agent ID and Alias ID must be configured")
  else
    match ep n with
    | .ok r => .ok r
    | .error (.clientError _ msg) =>
      .error (.bedrockError ("Agent invocation failed: " ++ msg))
    | .error e => .error e

/-- `BedrockService.invoke_agent`: the decorated function. -/
def BedrockService.invoke_agent {α : Type} (st : BedrockSettings)
    (ep : Nat → Except PyExc α) : Except PyExc α × Nat × List Nat :=
  tenacityRetry3 (invoke_agent_body st ep)

/-- `BedrockService.retrieve_from_knowledge_base` (no retry decorator): the
configuration guard runs before the `try` block and before any endpoint
call. -/
def BedrockService.retrieve_from_knowledge_base {α : Type}
    (st : BedrockSettings) (ep : Except PyExc α) : Except PyExc α :=
  if pyFalsyOptStr st.bedrock_knowledge_base_id then
    .error (.bedrockError "Knowledge Base ID must be configured")
  else
    match ep with
    | .ok r => .ok r
    | .error (.clientError _ msg) =>
      .error (.bedrockError ("Knowledge base retrieval failed: " ++ msg))
    | .error e => .error e

/-- The outcome of a call to `process_step`: success with the updated
context, or a raised exception whose message is `msg`; since mutation is
in place, the raised case also carries the context state at raise time. -/
inductive StepResult where
  | ok (c : StrandContext)
  | err (msg : String) (c : StrandContext)

/-- The Step Policy capability pair the engine depends on
(`process_step` / `should_continue`).  `should_continue` returns its
decision together with the (in-place) context it leaves behind. -/
structure StepPolicy where
  should_continue : StrandContext → Bool × StrandContext
  process_step : StrandContext → StepResult

/-- The result of `StrandAgent._execute_loop`. -/
inductive LoopOutcome where
  | completed (c : StrandContext)
  | budgetExceeded (msg : String) (c : StrandContext)
  | stepFailed (msg : String) (c : StrandContext)
  | fuelOut

/-- `StrandAgent._execute_loop`, fuel-indexed (the loop need not terminate
for an arbitrary policy; `fuelOut` marks exhaustion of the index, never a
behaviour of the source).  Returns the outcome together with the number of
`process_step` calls made. -/
def execute_loop (p : StepPolicy) : Nat → StrandContext → LoopOutcome × Nat
  | 0, _ => (.fuelOut, 0)
  | fuel + 1, c =>
    let sc := p.should_continue c
    if sc.1 then
      let c1 := sc.2
      if c1.iteration ≥ c1.max_iterations then
        (.budgetExceeded
          ("Maximum iterations (" ++ toString c1.max_iterations ++ ") exceeded") c1, 0)
      else
        match p.process_step c1 with
        | .err e c2 => (.stepFailed e c2, 1)
        | .ok c2 =>
          let r := execute_loop p fuel { c2 with iteration := c2.iteration + 1 }
          (r.1, r.2 + 1)
    else (.completed sc.2, 0)

/-- The result of `StrandAgent.execute` as observed by the caller: either
the final context, or a raised `AgentTimeoutError` / `AgentExecutionError`.
Because the context object is mutated in place, the caller observes the
carried context alongside the exception. -/
inductive ExecOutcome where
  | ok (c : StrandContext)
  | timeoutErr (msg : String) (c : StrandContext)
  | execErr (msg : String) (c : StrandContext)
  | fuelOut

/-- The part of `StrandAgent.execute` that runs before the loop: create a
fresh context when none is supplied (with `max_iterations` from settings),
append the initial input as a user message when the context has no
messages, set state RUNNING and record the start time.  `t1` models the
`datetime.utcnow()` reads at this point; `sid`/`sess` the generated UUIDs
of a fresh context. -/
def beginExecute (defaultMaxIter : Nat) (sid sess : String)
    (initial_input : String) (ctx : Option StrandContext) (t1 : DateTime) :
    StrandContext :=
  let c := match ctx with
    | none => mkStrandContext sid sess defaultMaxIter
    | some c => c
  let c := if c.messages.isEmpty then c.add_message "user" initial_input t1 [] else c
  { c with state := .running, start_time := some t1 }

/-- `StrandAgent.execute`.  `timeoutAt = some cA` is the oracle for the
`asyncio.wait_for` deadline elapsing while the loop is in flight, with `cA`
the (in-place mutated) context at abandonment; `timeoutAt = none` means the
loop ran to its own outcome.  `t2` models the `datetime.utcnow()` read in
the completion/failure handlers.  Returns the outcome and the number of
`process_step` calls of a non-abandoned loop. -/
def StrandAgent.execute (p : StepPolicy) (fuel : Nat)
    (defaultMaxIter defaultTimeout : Nat) (sid sess : String)
    (initial_input : String) (ctx : Option StrandContext)
    (timeout : Option Nat) (timeoutAt : Option StrandContext)
    (t1 t2 : DateTime) : ExecOutcome × Nat :=
  let c0 := beginExecute defaultMaxIter sid sess initial_input ctx t1
  let timeout_seconds := timeout.getD defaultTimeout
  match timeoutAt with
  | some cA =>
    (.timeoutErr
      ("Strand execution timed out after " ++ toString timeout_seconds ++ " seconds")
      { cA with
        state := .timeout,
        end_time := some t2,
        error := some ("Execution timed out after " ++ toString timeout_seconds
          ++ " seconds") }, 0)
  | none =>
    match execute_loop p fuel c0 with
    | (.completed c, k) =>
      (.ok { c with state := .completed, end_time := some t2 }, k)
    | (.budgetExceeded e c, k) =>
      (.execErr ("Strand execution failed: " ++ e)
        { c with state := .failed, end_time := some t2, error := some e }, k)
    | (.stepFailed e c, k) =>
      (.execErr ("Strand execution failed: " ++ e)
        { c with state := .failed, end_time := some t2, error := some e }, k)
    | (.fuelOut, k) => (.fuelOut, k)

/-- `StrandAgent.pause`: sets state to PAUSED. -/
def StrandAgent.pause (c : StrandContext) : StrandContext :=
  { c with state := .paused }

/-- The result of `StrandAgent.resume`: either the guard raises
`AgentExecutionError("Cannot resume strand that is not paused",
details={"state": state.value})` — carrying the offending state's name and
leaving the context untouched — or execution re-enters `execute`. -/
inductive ResumeResult where
  | illegalState (msg stateName : String) (c : StrandContext)
  | ran (r : ExecOutcome × Nat)

/-- `StrandAgent.resume`: requires state PAUSED, then re-enters `execute`
with an empty initial input and the same context. -/
def StrandAgent.resume (p : StepPolicy) (fuel : Nat)
    (defaultMaxIter defaultTimeout : Nat) (sid sess : String)
    (timeoutAt : Option StrandContext) (t1 t2 : DateTime)
    (c : StrandContext) : ResumeResult :=
  if c.state ≠ .paused then
    .illegalState "Cannot resume strand that is not paused" c.state.value c
  else
    .ran (StrandAgent.execute p fuel defaultMaxIter defaultTimeout sid sess
      "" (some c) none timeoutAt t1 t2)

/-- Substring containment on character lists (`sub in hay` for Python
strings). -/
def containsSub (sub : List Char) : List Char → Bool
  | [] => sub.isEmpty
  | c :: rest => sub.isPrefixOf (c :: rest) || containsSub sub rest

/-- Python `sub in hay` for strings. -/
def strContains (hay sub : String) : Bool :=
  containsSub sub.data hay.data

/-- Python `str.lower()`, modelled character-wise. -/
def strToLower (s : String) : String :=
  ⟨s.data.map Char.toLower⟩

/-- The completion indicator phrases of `LearningAgent.should_continue`. -/
def completion_phrases : List String :=
  ["learning session complete", "you\x27ve mastered",
   "congratulations on completing", "assessment complete"]

/-- `LearningAgent.should_continue`, the concrete Step Policy predicate.
Returns the decision together with the context it leaves behind: the
source mutates `context.variables` in place when a completion phrase is
detected. -/
def LearningAgent.should_continue (c : StrandContext) : Bool × StrandContext :=
  match dictGet c.«variables» "learning_complete" with
  | some v => (!pyTruthy v, c)
  | none =>
    let assistant_messages := c.messages.filter (fun m => m.role == "assistant")
    match assistant_messages.getLast? with
    | some m =>
      let last_response := strToLower m.content
      if completion_phrases.any (fun ph => strContains last_response ph) then
        (false,
         { c with «variables» := dictSet c.«variables» "learning_complete" (.bool true) })
      else (decide (c.iteration < c.max_iterations), c)
    | none => (decide (c.iteration < c.max_iterations), c)

/-- One content block of a parsed Anthropic-format response body:
`block.get("type")` and `block.get("text", "")` are dictionary lookups that
may be absent. -/
structure ContentBlock where
  type : Option String
  text : Option String

/-- The parsed response body as seen by `StrandAgent.invoke_model`:
`"content" in response` may fail, in which case `content = none`. -/
structure ModelResponseBody where
  content : Option (List ContentBlock)

/-- The text-extraction logic of `StrandAgent.invoke_model`: when a
`content` key is present, concatenate the `text` of the blocks whose
`type` is `"text"`, in order, and strip surrounding whitespace; otherwise
return the empty string.  Python `str.strip()` is modelled by
`String.trim`. -/
def StrandAgent.extract_text (response : ModelResponseBody) : String :=
  match response.content with
  | some content_blocks =>
    let text := String.join
      ((content_blocks.filter (fun b => b.type == some "text")).map
        (fun b => b.text.getD ""))
    text.trim
  | none => ""

/-- `StrandAgent.invoke_model`, given the outcome of the underlying
`bedrock_service.invoke_model` call: any exception is re-raised as
`AgentExecutionError("Model invocation failed: ...")`; a successful
response goes through the text extraction. -/
def StrandAgent.invoke_model (service : Except PyExc ModelResponseBody) :
    Except String String :=
  match service with
  | .ok r => .ok (StrandAgent.extract_text r)
  | .error e => .error ("Model invocation failed: " ++ e.text)

/-- A sample timestamp used by the concrete test runs below. -/
def sampleTime1 : DateTime := ⟨2024, 3, 15, 12, 0, 0, 0⟩

/-- A second, distinct sample timestamp. -/
def sampleTime2 : DateTime := ⟨2024, 3, 15, 12, 0, 5, 250000⟩

/-- A third sample timestamp. -/
def sampleTime3 : DateTime := ⟨2024, 3, 15, 12, 1, 0, 0⟩

/-- An endpoint behaviour that raises a throttling `ClientError` on the
first two calls and succeeds on the third — the transient-failure run of
the retry specification. -/
def throttlingEndpoint : Nat → Except PyExc Nat
  | 1 => .error (.clientError "ThrottlingException" "Rate exceeded")
  | 2 => .error (.clientError "ThrottlingException" "Rate exceeded")
  | _ => .ok 42

/-- A step policy whose `should_continue` always answers true and whose
`process_step` succeeds without touching the context. -/
def alwaysContinuePolicy : StepPolicy :=
  { should_continue := fun c => (true, c), process_step := fun c => .ok c }

/-- A step policy whose `should_continue` immediately answers false. -/
def stopPolicy : StepPolicy :=
  { should_continue := fun c => (false, c), process_step := fun c => .ok c }

/-- A step policy whose first `process_step` raises. -/
def failingPolicy : StepPolicy :=
  { should_continue := fun c => (true, c), process_step := fun c => .err "boom" c }

/-- A context in state RUNNING mid-session, with one message and a recorded
start time. -/
def runningCtx : StrandContext :=
  { strand_id := "s-run", session_id := "g-run", state := .running,
    messages := [{ role := "user", content := "hi", timestamp := sampleTime1,
                   metadata := [] }],
    «variables» := [("learner_level", .str "beginner")], iteration := 1,
    max_iterations := 5, start_time := some sampleTime1, end_time := none,
    error := none }

/-- A context in the terminal state COMPLETED. -/
def completedCtx : StrandContext :=
  { strand_id := "s-done", session_id := "g-done", state := .completed,
    messages := [{ role := "user", content := "hi", timestamp := sampleTime1,
                   metadata := [] }],
    «variables» := [], iteration := 2, max_iterations := 5,
    start_time := some sampleTime1, end_time := some sampleTime2,
    error := none }

/-- A context whose last assistant message contains a completion phrase and
whose `variables` do not yet contain `learning_complete`. -/
def detectDoneCtx : StrandContext :=
  { strand_id := "s-det", session_id := "g-det", state := .running,
    messages := [{ role := "assistant", content := "Learning session complete.",
                   timestamp := sampleTime1, metadata := [] }],
    «variables» := [], iteration := 1, max_iterations := 5,
    start_time := some sampleTime1, end_time := none, error := none }

/-- A context with a message and timestamps, used to exercise the
serialization round-trip. -/
def serializeCtx : StrandContext :=
  { strand_id := "s-ser", session_id := "g-ser", state := .completed,
    messages := [{ role := "user", content := "explain recursion",
                   timestamp := sampleTime1, metadata := [("test", .str "value")] },
                 { role := "assistant", content := "Recursion is ...",
                   timestamp := sampleTime2,
                   metadata := [("iteration", .int 0)] }],
    «variables» := [("learning_goal", .str "concept_explanation"),
                    ("progress", .dict [("questions_asked", .int 1)])],
    iteration := 1, max_iterations := 10,
    start_time := some sampleTime1, end_time := some sampleTime3,
    error := none }

instance (c : StrandContext) : Decidable c.TimesWF := by
  unfold StrandContext.TimesWF; infer_instance

/-- The context produced by the pause-resume counterexample run below. -/
def resumedCtx : StrandContext :=
  { strand_id := "s-run", session_id := "g-run", state := .completed,
    messages := [{ role := "user", content := "hi", timestamp := sampleTime1,
                   metadata := [] }],
    «variables» := [("learner_level", .str "beginner")], iteration := 1,
    max_iterations := 5, start_time := some sampleTime2,
    end_time := some sampleTime3, error := none }

theorem parseDigit_digitChar : ∀ k ≤ 9, parseDigit (Nat.digitChar k) = some k := by
  decide

theorem parse2_round (n : Nat) (h : n ≤ 99) :
    parse2 (Nat.digitChar (n / 10)) (Nat.digitChar (n % 10)) = some n := by
  rw [parse2, parseDigit_digitChar _ (by omega), parseDigit_digitChar _ (by omega)]
  simp only [Option.some.injEq]
  omega

theorem parse4_round (n : Nat) (h : n ≤ 9999) :
    parse4 (Nat.digitChar (n / 1000)) (Nat.digitChar (n / 100 % 10))
      (Nat.digitChar (n / 10 % 10)) (Nat.digitChar (n % 10)) = some n := by
  rw [parse4, parseDigit_digitChar _ (by omega), parseDigit_digitChar _ (by omega),
    parseDigit_digitChar _ (by omega), parseDigit_digitChar _ (by omega)]
  simp only [Option.some.injEq]
  omega

theorem parse6_round (n : Nat) (h : n ≤ 999999) :
    parse6 (Nat.digitChar (n / 100000)) (Nat.digitChar (n / 10000 % 10))
      (Nat.digitChar (n / 1000 % 10)) (Nat.digitChar (n / 100 % 10))
      (Nat.digitChar (n / 10 % 10)) (Nat.digitChar (n % 10)) = some n := by
  rw [parse6, parseDigit_digitChar _ (by omega), parseDigit_digitChar _ (by omega),
    parseDigit_digitChar _ (by omega), parseDigit_digitChar _ (by omega),
    parseDigit_digitChar _ (by omega), parseDigit_digitChar _ (by omega)]
  simp only [Option.some.injEq]
  omega

theorem fromisoformat_isoformat (d : DateTime) (h : d.WF) :
    DateTime.fromisoformat d.isoformat = some d := by
  obtain ⟨yy, mo, dd, hh, mi, ss, us⟩ := d
  simp only [DateTime.WF] at h
  obtain ⟨h1, h2, h3, h4, h5, h6, h7, h8, h9, h10⟩ := h
  simp only [DateTime.fromisoformat, DateTime.isoformat, DateTime.isoformatChars,
    pad4, pad2, pad6]
  by_cases hus : us = 0
  · subst hus
    simp only [if_pos rfl, List.cons_append, List.nil_append, List.append_nil]
    rw [fromIsoChars]
    rw [parse4_round _ (by omega), parse2_round _ (by omega), parse2_round _ (by omega),
      parse2_round _ (by omega), parse2_round _ (by omega), parse2_round _ (by omega)]
    simp
  · simp only [if_neg hus, List.cons_append, List.nil_append]
    rw [fromIsoChars]
    rw [parse4_round _ (by omega), parse2_round _ (by omega), parse2_round _ (by omega),
      parse2_round _ (by omega), parse2_round _ (by omega), parse2_round _ (by omega)]
    simp [parse6_round us (by omega)]

theorem StrandState.ofValue_value (s : StrandState) : ofValue s.value = some s := by
  cases s <;> rfl

theorem StrandMessage.from_dict_to_dict (m : StrandMessage) (h : m.timestamp.WF) :
    from_dict m.to_dict = some m := by
  simp [from_dict, to_dict, fromisoformat_isoformat _ h]

theorem parseOptTime_round (t : Option DateTime) (h : ∀ x ∈ t, DateTime.WF x) :
    parseOptTime (t.map DateTime.isoformat) = some t := by
  cases t with
  | none => rfl
  | some x => simp [parseOptTime, fromisoformat_isoformat x (h x rfl)]

theorem mapM_from_dict_map_to_dict (ms : List StrandMessage)
    (h : ∀ m ∈ ms, m.timestamp.WF) :
    (ms.map StrandMessage.to_dict).mapM StrandMessage.from_dict = some ms := by
  induction ms with
  | nil => rfl
  | cons m rest ih =>
    simp only [List.map_cons, List.mapM_cons,
      StrandMessage.from_dict_to_dict m (h m (by simp)),
      ih (fun x hx => h x (by simp [hx]))]
    rfl

/-- C9: serializing a `StrandContext` to its transport shape
(`to_dict`) and deserializing back preserves message ordering, timestamps
to the recorded precision, and variable contents exactly — the round trip
is the identity — provided the recorded datetimes satisfy the `datetime`
range invariants. -/
theorem strand_context_to_dict_roundtrip (c : StrandContext) (h : c.TimesWF) :
    StrandContext.from_dict c.to_dict = some c := by
  obtain ⟨hm, hs, he⟩ := h
  simp only [StrandContext.from_dict, StrandContext.to_dict,
    StrandState.ofValue_value, mapM_from_dict_map_to_dict c.messages hm,
    parseOptTime_round _ hs, parseOptTime_round _ he]

theorem strand_context_to_dict_roundtrip_witness :
    StrandContext.from_dict serializeCtx.to_dict = some serializeCtx :=
  strand_context_to_dict_roundtrip serializeCtx (by decide)

/-- C10: for a parsed response body with no `content` key, the agent-level
`invoke_model` returns the empty string and raises no error; when `content`
is present, only blocks whose `type` is `"text"` contribute, concatenated
in order with surrounding whitespace stripped. -/
theorem invoke_model_text_extraction :
    (∀ r : ModelResponseBody, r.content = Option.none →
      StrandAgent.invoke_model (.ok r) = .ok "") ∧
    (∀ (l1 l2 : List ContentBlock) (b : ContentBlock), b.type ≠ some "text" →
      StrandAgent.extract_text ⟨some (l1 ++ b :: l2)⟩ =
        StrandAgent.extract_text ⟨some (l1 ++ l2)⟩) ∧
    (∀ blocks : List ContentBlock,
      StrandAgent.extract_text ⟨some blocks⟩ =
        (String.join (blocks.filterMap (fun b =>
          if b.type == some "text" then some (b.text.getD "") else Option.none))).trim) := by
  refine ⟨fun r hr => ?_, fun l1 l2 b hb => ?_, fun blocks => ?_⟩
  · simp [StrandAgent.invoke_model, StrandAgent.extract_text, hr]
  · have hb' : (b.type == some "text") = false := by
      simp only [beq_eq_false_iff_ne, ne_eq]; exact hb
    simp [StrandAgent.extract_text, List.filter_append, List.filter_cons, hb']
  · have : blocks.filterMap (fun b =>
        if b.type == some "text" then some (b.text.getD "") else Option.none) =
        (blocks.filter (fun b => b.type == some "text")).map (fun b => b.text.getD "") := by
      induction blocks with
      | nil => rfl
      | cons b bs ih =>
        by_cases hb : b.type = some "text"
        · simp [List.filterMap_cons, List.filter_cons, hb]
          simpa using ih
        · simp [List.filterMap_cons, List.filter_cons, hb]
          simpa using ih
    rw [this]
    rfl

theorem invoke_model_text_extraction_witness :
    StrandAgent.invoke_model (.ok ⟨Option.none⟩) = .ok "" :=
  invoke_model_text_extraction.1 ⟨Option.none⟩ rfl

/-- C4: `resume` on a non-PAUSED context raises the illegal-state execution
error naming the offending state and carrying the context unmodified; on a
PAUSED context it re-enters `execute` with an empty initial input and the
same context. -/
theorem resume_guard_and_reentry (p : StepPolicy) (fuel dMI dT : Nat)
    (sid sess : String) (timeoutAt : Option StrandContext) (t1 t2 : DateTime)
    (c : StrandContext) :
    (c.state ≠ .paused →
      StrandAgent.resume p fuel dMI dT sid sess timeoutAt t1 t2 c =
        .illegalState "Cannot resume strand that is not paused" c.state.value c) ∧
    (c.state = .paused →
      StrandAgent.resume p fuel dMI dT sid sess timeoutAt t1 t2 c =
        .ran (StrandAgent.execute p fuel dMI dT sid sess "" (some c)
          Option.none timeoutAt t1 t2)) := by
  constructor <;> intro h <;> simp [StrandAgent.resume, h]

theorem resume_guard_and_reentry_witness :
    StrandAgent.resume stopPolicy 2 10 300 "s" "g" Option.none sampleTime2 sampleTime3
        (StrandAgent.pause runningCtx) =
      .ran (StrandAgent.execute stopPolicy 2 10 300 "s" "g" ""
        (some (StrandAgent.pause runningCtx)) Option.none Option.none
        sampleTime2 sampleTime3) :=
  (resume_guard_and_reentry stopPolicy 2 10 300 "s" "g" Option.none
    sampleTime2 sampleTime3 (StrandAgent.pause runningCtx)).2 rfl

/-- C5 counterexample: for a RUNNING context with a recorded start time,
`pause` followed by `resume` does not change only the `state` field — the
re-entered `execute` also resets `start_time` to the resume-time clock
(`sampleTime2`), which differs from the recorded one; messages, variables
and iteration are preserved but `start_time` is not. -/
theorem resume_changes_start_time :
    StrandAgent.resume stopPolicy 2 10 300 "sx" "gx" Option.none sampleTime2 sampleTime3
        (StrandAgent.pause runningCtx) = .ran (.ok resumedCtx, 0) ∧
    resumedCtx.start_time ≠ runningCtx.start_time ∧
    resumedCtx.messages = runningCtx.messages ∧
    resumedCtx.iteration = runningCtx.iteration := by
  refine ⟨rfl, by decide, rfl, rfl⟩

/-- C5 (amended): `pause` sets only `state` (to PAUSED) and touches neither
the iteration counter, the messages, nor the timers; for a context with at
least one message, the pre-loop phase of the re-entered `execute` preserves
`messages`, `variables`, `iteration`, `max_iterations`, the identifiers,
`end_time` and `error` exactly, and changes exactly two fields: `state`
(PAUSED back to RUNNING) and `start_time`, which is reset to the
resume-time clock. -/
theorem pause_resume_frame (dMI : Nat) (sid sess : String) (t1 : DateTime)
    (c : StrandContext) (h : c.messages ≠ []) :
    StrandAgent.pause c = { c with state := .paused } ∧
    (beginExecute dMI sid sess "" (some (StrandAgent.pause c)) t1).messages = c.messages ∧
    (beginExecute dMI sid sess "" (some (StrandAgent.pause c)) t1).«variables» = c.«variables» ∧
    (beginExecute dMI sid sess "" (some (StrandAgent.pause c)) t1).iteration = c.iteration ∧
    (beginExecute dMI sid sess "" (some (StrandAgent.pause c)) t1).max_iterations = c.max_iterations ∧
    (beginExecute dMI sid sess "" (some (StrandAgent.pause c)) t1).strand_id = c.strand_id ∧
    (beginExecute dMI sid sess "" (some (StrandAgent.pause c)) t1).session_id = c.session_id ∧
    (beginExecute dMI sid sess "" (some (StrandAgent.pause c)) t1).end_time = c.end_time ∧
    (beginExecute dMI sid sess "" (some (StrandAgent.pause c)) t1).error = c.error ∧
    (beginExecute dMI sid sess "" (some (StrandAgent.pause c)) t1).state = .running ∧
    (beginExecute dMI sid sess "" (some (StrandAgent.pause c)) t1).start_time = some t1 := by
  have hme : c.messages.isEmpty = false := by
    cases hm : c.messages with
    | nil => exact absurd hm h
    | cons a l => simp
  unfold beginExecute
  simp [hme, StrandAgent.pause]

theorem pause_resume_frame_witness :
    (beginExecute 10 "s" "g" "" (some (StrandAgent.pause runningCtx)) sampleTime2).messages
      = runningCtx.messages ∧
    (beginExecute 10 "s" "g" "" (some (StrandAgent.pause runningCtx)) sampleTime2).start_time
      = some sampleTime2 := by
  obtain ⟨-, h1, -, -, -, -, -, -, -, -, h2⟩ :=
    pause_resume_frame 10 "s" "g" sampleTime2 runningCtx (by simp [runningCtx])
  exact ⟨h1, h2⟩

/-- C6 counterexample: `LearningAgent.should_continue` is not a pure
function of the context — on a context whose last assistant message
contains a completion phrase and whose variables lack `learning_complete`,
it mutates `variables` (setting `learning_complete` to `True`). -/
theorem should_continue_mutates :
    (LearningAgent.should_continue detectDoneCtx).1 = false ∧
    (LearningAgent.should_continue detectDoneCtx).2.«variables» ≠
      detectDoneCtx.«variables» := by
  constructor
  · rfl
  · intro hcontra
    have h1 : (LearningAgent.should_continue detectDoneCtx).2.«variables» =
        [("learning_complete", PyValue.bool true)] := rfl
    have h2 : detectDoneCtx.«variables» = [] := rfl
    rw [h1, h2] at hcontra
    exact List.cons_ne_nil _ _ hcontra

/-- C6 (amended): `should_continue` returns a boolean and leaves every
field of the context unchanged except possibly `variables`, which it either
leaves unchanged or updates by setting the key `learning_complete` to
`True` (caching a detected completion phrase); messages, iteration, state
and timestamps are never mutated. -/
theorem should_continue_frame (c : StrandContext) :
    ((LearningAgent.should_continue c).2.strand_id = c.strand_id ∧
     (LearningAgent.should_continue c).2.session_id = c.session_id ∧
     (LearningAgent.should_continue c).2.state = c.state ∧
     (LearningAgent.should_continue c).2.messages = c.messages ∧
     (LearningAgent.should_continue c).2.iteration = c.iteration ∧
     (LearningAgent.should_continue c).2.max_iterations = c.max_iterations ∧
     (LearningAgent.should_continue c).2.start_time = c.start_time ∧
     (LearningAgent.should_continue c).2.end_time = c.end_time ∧
     (LearningAgent.should_continue c).2.error = c.error) ∧
    ((LearningAgent.should_continue c).2.«variables» = c.«variables» ∨
     (LearningAgent.should_continue c).2.«variables» =
       dictSet c.«variables» "learning_complete" (.bool true)) := by
  have key : (LearningAgent.should_continue c).2 = c ∨
      (LearningAgent.should_continue c).2 =
        { c with «variables» := dictSet c.«variables» "learning_complete" (.bool true) } := by
    unfold LearningAgent.should_continue
    rcases hget : dictGet c.«variables» "learning_complete" with _ | v
    · rcases hlast : (c.messages.filter (fun m => m.role == "assistant")).getLast? with _ | m
      · simp [hget, hlast]
      · simp only [hget, hlast]
        split
        · right; rfl
        · left; rfl
    · simp [hget]
  rcases key with hk | hk <;> rw [hk] <;> simp

/-- C7 counterexample: the terminal states are not absorbing for every core
operation — `pause` on a COMPLETED context transitions it out of the
terminal state (to PAUSED). -/
theorem pause_leaves_terminal :
    completedCtx.state = .completed ∧
    (StrandAgent.pause completedCtx).state = .paused := ⟨rfl, rfl⟩

/-- C7 (amended): among the core operations only `resume` guards terminal
states: on a COMPLETED/FAILED/TIMEOUT context it raises the illegal-state
error and leaves the context untouched, so no transition occurs through
`resume`; `pause` and the pre-loop phase of `execute`, being unguarded, do
transition a terminal context (to PAUSED and RUNNING respectively). -/
theorem terminal_guarded_only_by_resume (p : StepPolicy) (fuel dMI dT : Nat)
    (sid sess input : String) (timeoutAt : Option StrandContext)
    (t1 t2 : DateTime) (c : StrandContext)
    (h : c.state = .completed ∨ c.state = .failed ∨ c.state = .timeout) :
    StrandAgent.resume p fuel dMI dT sid sess timeoutAt t1 t2 c =
      .illegalState "Cannot resume strand that is not paused" c.state.value c ∧
    (StrandAgent.pause c).state = .paused ∧
    (beginExecute dMI sid sess input (some c) t1).state = .running := by
  have hne : c.state ≠ .paused := by
    rcases h with h | h | h <;> simp [h]
  refine ⟨by simp [StrandAgent.resume, hne], rfl, ?_⟩
  unfold beginExecute
  split <;> rfl

theorem terminal_guarded_only_by_resume_witness :
    StrandAgent.resume stopPolicy 1 10 300 "s" "g" Option.none sampleTime1 sampleTime2
        completedCtx =
      .illegalState "Cannot resume strand that is not paused" "completed" completedCtx :=
  (terminal_guarded_only_by_resume stopPolicy 1 10 300 "s" "g" "x" Option.none
    sampleTime1 sampleTime2 completedCtx (Or.inl rfl)).1

theorem retryGo_ok {α : Type} (f : Nat → Except PyExc α) (rem n : Nat) (a : α)
    (hf : f n = .ok a) : retryGo f rem n = (.ok a, n, []) := by
  match rem with
  | 0 => simp [retryGo, hf]
  | 1 => simp [retryGo, hf]
  | r + 2 => simp [retryGo, hf]

theorem retryGo_nonretryable {α : Type} (f : Nat → Except PyExc α) (rem n : Nat)
    (e : PyExc) (hf : f n = .error e) (he : isRetryableExc e = false) :
    retryGo f rem n = (.error e, n, []) := by
  match rem with
  | 0 => simp [retryGo, hf]
  | 1 => simp [retryGo, hf]
  | r + 2 => simp [retryGo, hf, he]

/-- C1: the retry specification fails on the code — the body of
`invoke_model` converts every exception (including the transient
`ClientError`/`ConnectionError` ones) into `BedrockError` before the
tenacity decorator can observe it, so the predicate
`retry_if_exception_type((ClientError, ConnectionError))` never matches:
on the 2-transient-failures-then-success endpoint the call fails after
exactly one attempt with no backoff sleeps instead of returning the
success, and in fact every run of `invoke_model` consists of exactly one
attempt with no retries. -/
theorem invoke_model_never_retries :
    BedrockService.invoke_model throttlingEndpoint =
      (.error (.bedrockError "Bedrock model invocation failed: Rate exceeded"), 1, []) ∧
    throttlingEndpoint 1 = .error (.clientError "ThrottlingException" "Rate exceeded") ∧
    throttlingEndpoint 2 = .error (.clientError "ThrottlingException" "Rate exceeded") ∧
    throttlingEndpoint 3 = .ok 42 ∧
    (∀ (α : Type) (ep : Nat → Except PyExc α),
      (BedrockService.invoke_model ep).2 = (1, [])) := by
  refine ⟨?_, rfl, rfl, rfl, ?_⟩
  · exact retryGo_nonretryable (invoke_model_body throttlingEndpoint) 3 1
      (.bedrockError "Bedrock model invocation failed: Rate exceeded") rfl rfl
  · intro α ep
    unfold BedrockService.invoke_model tenacityRetry3
    cases hep : ep 1 with
    | ok a => rw [retryGo_ok _ 3 1 a (by simp [invoke_model_body, hep])]
    | error e =>
      have hbody : ∃ m, invoke_model_body ep 1 = .error (.bedrockError m) := by
        cases e <;> simp [invoke_model_body, hep]
      obtain ⟨m, hm⟩ := hbody
      rw [retryGo_nonretryable _ 3 1 _ hm rfl]

/-- C8: when required configuration is absent (agent id/alias id for agent
invocation, knowledge-base id for retrieval), the call fails immediately
with the configuration error, the remote endpoint is never attempted (the
result is independent of the endpoint's behaviour), and no retry occurs
(a single attempt, no backoff sleeps). -/
theorem missing_config_fails_immediately {α : Type} (st : BedrockSettings)
    (ep ep' : Nat → Except PyExc α) (r r' : Except PyExc α) :
    ((pyFalsyOptStr st.bedrock_agent_id || pyFalsyOptStr st.bedrock_agent_alias_id) = true →
      BedrockService.invoke_agent st ep =
        (.error (.bedrockError "Bedrock Agent ID and Alias ID must be configured"), 1, []) ∧
      BedrockService.invoke_agent st ep = BedrockService.invoke_agent st ep') ∧
    (pyFalsyOptStr st.bedrock_knowledge_base_id = true →
      BedrockService.retrieve_from_knowledge_base st r =
        .error (.bedrockError "Knowledge Base ID must be configured") ∧
      BedrockService.retrieve_from_knowledge_base st r =
        BedrockService.retrieve_from_knowledge_base st r') := by
  constructor
  · intro h
    have key : ∀ f : Nat → Except PyExc α, BedrockService.invoke_agent st f =
        (.error (.bedrockError "Bedrock Agent ID and Alias ID must be configured"), 1, []) := by
      intro f
      unfold BedrockService.invoke_agent tenacityRetry3
      exact retryGo_nonretryable _ 3 1 _ (by simp [invoke_agent_body, h]) rfl
    exact ⟨key ep, by rw [key ep, key ep']⟩
  · intro h
    have key : ∀ x : Except PyExc α, BedrockService.retrieve_from_knowledge_base st x =
        .error (.bedrockError "Knowledge Base ID must be configured") := by
      intro x
      unfold BedrockService.retrieve_from_knowledge_base
      simp [h]
    exact ⟨key r, by rw [key r, key r']⟩

theorem missing_config_fails_immediately_witness :
    BedrockService.invoke_agent ⟨Option.none, Option.none, Option.none⟩ (fun _ => .ok 7) =
      (.error (.bedrockError "Bedrock Agent ID and Alias ID must be configured"), 1, []) ∧
    BedrockService.retrieve_from_knowledge_base ⟨Option.none, Option.none, Option.none⟩
        (.ok 7) =
      .error (.bedrockError "Knowledge Base ID must be configured") := by
  have h := missing_config_fails_immediately ⟨Option.none, Option.none, Option.none⟩
    (fun _ => .ok 7) (fun _ => .ok 8) (.ok 7) (.ok 8)
  exact ⟨(h.1 rfl).1, (h.2 rfl).1⟩

theorem beginExecute_counters (d : Nat) (sid sess inp : String)
    (c : StrandContext) (t : DateTime) :
    (beginExecute d sid sess inp (some c) t).iteration = c.iteration ∧
    (beginExecute d sid sess inp (some c) t).max_iterations = c.max_iterations := by
  constructor
  · show (if c.messages.isEmpty = true then c.add_message "user" inp t [] else c).iteration
        = c.iteration
    split <;> rfl
  · show (if c.messages.isEmpty = true then c.add_message "user" inp t [] else c).max_iterations
        = c.max_iterations
    split <;> rfl

theorem execute_loop_budget (p : StepPolicy)
    (hsc : ∀ c, p.should_continue c = (true, c))
    (hps : ∀ c, ∃ c', p.process_step c = .ok c' ∧
      c'.iteration = c.iteration ∧ c'.max_iterations = c.max_iterations) :
    ∀ (fuel : Nat) (c : StrandContext), c.iteration ≤ c.max_iterations →
      c.max_iterations - c.iteration < fuel →
      ∃ cf, execute_loop p fuel c =
        (.budgetExceeded
          ("Maximum iterations (" ++ toString c.max_iterations ++ ") exceeded") cf,
         c.max_iterations - c.iteration) := by
  intro fuel
  induction fuel with
  | zero => intro c _ h2; omega
  | succ f ih =>
    intro c h1 h2
    by_cases hge : c.max_iterations ≤ c.iteration
    · have heq : c.max_iterations - c.iteration = 0 := by omega
      refine ⟨c, ?_⟩
      rw [heq]
      simp [execute_loop, hsc c, hge]
    · push_neg at hge
      obtain ⟨c', hstep, hit, hmax⟩ := hps c
      obtain ⟨cf, hcf⟩ := ih { c' with iteration := c'.iteration + 1 }
        (show c'.iteration + 1 ≤ c'.max_iterations by omega)
        (show c'.max_iterations - (c'.iteration + 1) < f by omega)
      refine ⟨cf, ?_⟩
      have hgoal : execute_loop p (f + 1) c =
          ((execute_loop p f { c' with iteration := c'.iteration + 1 }).1,
           (execute_loop p f { c' with iteration := c'.iteration + 1 }).2 + 1) := by
        simp [execute_loop, hsc c, hstep, not_le.mpr hge]
      rw [hgoal, hcf]
      have hm : ({ c' with iteration := c'.iteration + 1 } : StrandContext).max_iterations
          = c.max_iterations := hmax
      have hi : ({ c' with iteration := c'.iteration + 1 } : StrandContext).iteration
          = c'.iteration + 1 := rfl
      rw [Prod.mk.injEq]
      constructor
      · rw [hm]
      · rw [hm, hi]
        omega

/-- C2: for a fresh context (iteration 0) with `max_iterations = N` and a
Step Policy whose `should_continue` always answers true and whose
`process_step` always succeeds (leaving the engine-owned counters alone,
as the engine requires), `execute` makes exactly N `process_step` calls
and then fails with the iteration-budget-exceeded execution error — never
an (N+1)-th call: the budget check runs before each `process_step`
invocation, so `max_iterations` bounds the number of `process_step` calls
exactly. -/
theorem execute_budget_exact_calls (p : StepPolicy) (fuel dMI dT : Nat)
    (sid sess input : String) (timeout : Option Nat) (t1 t2 : DateTime)
    (c0 : StrandContext)
    (hsc : ∀ c, p.should_continue c = (true, c))
    (hps : ∀ c, ∃ c', p.process_step c = .ok c' ∧
      c'.iteration = c.iteration ∧ c'.max_iterations = c.max_iterations)
    (h0 : c0.iteration = 0) (hfuel : c0.max_iterations < fuel) :
    ∃ cf : StrandContext, StrandAgent.execute p fuel dMI dT sid sess input (some c0) timeout
        Option.none t1 t2 =
      (.execErr ("Strand execution failed: " ++
          ("Maximum iterations (" ++ toString c0.max_iterations ++ ") exceeded"))
        { cf with
          state := .failed,
          end_time := some t2,
          error := some ("Maximum iterations (" ++ toString c0.max_iterations
            ++ ") exceeded") },
       c0.max_iterations) := by
  obtain ⟨hbit, hbmax⟩ := beginExecute_counters dMI sid sess input c0 t1
  obtain ⟨cf, hcf⟩ := execute_loop_budget p hsc hps fuel
    (beginExecute dMI sid sess input (some c0) t1) (by omega) (by omega)
  rw [hbit, h0, hbmax] at hcf
  refine ⟨cf, ?_⟩
  unfold StrandAgent.execute
  simp only [Nat.sub_zero] at hcf
  simp only [hcf]

theorem execute_budget_exact_calls_witness :
    (StrandAgent.execute alwaysContinuePolicy 4 10 300 "a" "b" "hello"
        (some (mkStrandContext "a" "b" 3)) Option.none Option.none
        sampleTime1 sampleTime2).2 = 3 := by
  obtain ⟨cf, hcf⟩ := execute_budget_exact_calls alwaysContinuePolicy 4 10 300 "a" "b"
    "hello" Option.none sampleTime1 sampleTime2 (mkStrandContext "a" "b" 3)
    (fun c => rfl) (fun c => ⟨c, rfl, rfl, rfl⟩) rfl (by decide)
  rw [hcf]
  rfl

/-- C3: every failure raised during execution — timeout, step-policy error,
or iteration-budget exhaustion — leads `execute` to set a terminal state
(TIMEOUT or FAILED) on the context, record the end timestamp and the error
text on it, and re-raise a classified error (`AgentTimeoutError` /
`AgentExecutionError`) carrying that context as it stood at failure time;
no failure is swallowed and no partial recovery is attempted: a normal
return arises only from a loop that completed on its own. -/
theorem execute_failure_paths (p : StepPolicy) (fuel dMI dT : Nat)
    (sid sess input : String) (ctx : Option StrandContext)
    (timeout : Option Nat) (timeoutAt : Option StrandContext) (t1 t2 : DateTime) :
    (∀ cA, timeoutAt = some cA →
      StrandAgent.execute p fuel dMI dT sid sess input ctx timeout timeoutAt t1 t2 =
        (.timeoutErr
          ("Strand execution timed out after " ++ toString (timeout.getD dT) ++ " seconds")
          { cA with
            state := .timeout,
            end_time := some t2,
            error := some ("Execution timed out after " ++ toString (timeout.getD dT)
              ++ " seconds") }, 0)) ∧
    (∀ (e : String) (c : StrandContext) (k : Nat), timeoutAt = Option.none →
      execute_loop p fuel (beginExecute dMI sid sess input ctx t1) = (.stepFailed e c, k) →
      StrandAgent.execute p fuel dMI dT sid sess input ctx timeout timeoutAt t1 t2 =
        (.execErr ("Strand execution failed: " ++ e)
          { c with state := .failed, end_time := some t2, error := some e }, k)) ∧
    (∀ (e : String) (c : StrandContext) (k : Nat), timeoutAt = Option.none →
      execute_loop p fuel (beginExecute dMI sid sess input ctx t1) = (.budgetExceeded e c, k) →
      StrandAgent.execute p fuel dMI dT sid sess input ctx timeout timeoutAt t1 t2 =
        (.execErr ("Strand execution failed: " ++ e)
          { c with state := .failed, end_time := some t2, error := some e }, k)) ∧
    (∀ (c : StrandContext) (k : Nat),
      StrandAgent.execute p fuel dMI dT sid sess input ctx timeout timeoutAt t1 t2 =
        (.ok c, k) →
      timeoutAt = Option.none ∧ c.state = .completed ∧ c.end_time = some t2 ∧
      ∃ c0 : StrandContext,
        execute_loop p fuel (beginExecute dMI sid sess input ctx t1) =
          (.completed c0, k)) := by
  refine ⟨?_, ?_, ?_, ?_⟩
  · intro cA hA
    subst hA
    rfl
  · intro e c k hA hloop
    subst hA
    unfold StrandAgent.execute
    simp only [hloop]
  · intro e c k hA hloop
    subst hA
    unfold StrandAgent.execute
    simp only [hloop]
  · intro c k hres
    unfold StrandAgent.execute at hres
    rcases timeoutAt with _ | cA
    · simp only [] at hres
      rcases hloop : execute_loop p fuel (beginExecute dMI sid sess input ctx t1)
        with ⟨r, k0⟩
      rw [hloop] at hres
      cases r with
      | completed c0 =>
        simp only [Prod.mk.injEq, ExecOutcome.ok.injEq] at hres
        obtain ⟨hc, hk⟩ := hres
        subst hk
        refine ⟨rfl, ?_, ?_, ⟨c0, rfl⟩⟩
        · rw [← hc]
        · rw [← hc]
      | budgetExceeded e c1 => simp at hres
      | stepFailed e c1 => simp at hres
      | fuelOut => simp at hres
    · simp at hres

theorem execute_failure_paths_witness :
    StrandAgent.execute failingPolicy 2 10 300 "s" "g" "x" (some runningCtx)
        Option.none Option.none sampleTime2 sampleTime3 =
      (.execErr ("Strand execution failed: " ++ "boom")
        { beginExecute 10 "s" "g" "x" (some runningCtx) sampleTime2 with
          state := .failed,
          end_time := some sampleTime3,
          error := some "boom" }, 1) :=
  (execute_failure_paths failingPolicy 2 10 300 "s" "g" "x" (some runningCtx)
    Option.none Option.none sampleTime2 sampleTime3).2.1 "boom"
    (beginExecute 10 "s" "g" "x" (some runningCtx) sampleTime2) 1 rfl rfl
